import Mathlib

/-!
Verification of the ekklesia attendee backend (routes/attendees.js and
friends) against its natural-language specification.

The data model and the route handlers are shallowly embedded below.  The
persistence layer (PostgreSQL) is modelled as an explicit in-memory state
`DB`; each HTTP handler becomes a pure function `DB → Resp × DB`.  SQL
queries over the attendees table become list searches with the same
predicates (including the NULL semantics of `regexp_replace` on NULL
phone numbers, and the foreign-key constraint `attendees.event_id
REFERENCES events(id)` from migrate.js).  Columns that no claim refers to
(`created_at`, `updated_at`, event metadata other than `is_finished`) are
omitted; `NOW()` is modelled by the clock field `DB.now`.  File parsing
and column resolution (XLSX + findKey) happen before the per-row import
loop; the import operation is modelled from the point where each sheet
row has been resolved to its name/phone/email cells, which is where all
the claims about importing live.
-/

namespace Ekklesia

/-- JavaScript `String.prototype.trim`, modelled on the character list:
drop whitespace from the front and from the back. -/
def jsTrim (l : List Char) : List Char :=
  ((l.dropWhile Char.isWhitespace).reverse.dropWhile Char.isWhitespace).reverse

/-- `trim` on strings. -/
def jsTrimStr (s : String) : String :=
  ⟨jsTrim s.data⟩

/-- `.replace(/\D/g, "")`: keep only the digit characters. -/
def digitsStr (s : String) : String :=
  ⟨s.data.filter Char.isDigit⟩

/-- The character class `[a-z0-9]` of the regex in `normalizeName`. -/
def isLowerAlnum (c : Char) : Bool :=
  decide ((97 ≤ c.toNat ∧ c.toNat ≤ 122) ∨ (48 ≤ c.toNat ∧ c.toNat ≤ 57))

/-- `normalizePhone` from routes/attendees.js: a falsy input (absent or
empty string) returns null; otherwise every non-digit character is
stripped.  `none` stands for JavaScript `null`/`undefined`. -/
def normalizePhone (number : Option String) : Option String :=
  match number with
  | none => none
  | some s => if s = "" then none else some (digitsStr s)

/-- The string pipeline of `normalizeName`: trim, lowercase, strip every
character outside `[a-z0-9]`. -/
def normalizeNameStr (s : String) : String :=
  ⟨((jsTrim s.data).map Char.toLower).filter isLowerAlnum⟩

/-- `normalizeName` from routes/attendees.js: falsy input yields the
empty string, otherwise trim, lowercase and strip non-alphanumerics. -/
def normalizeName (name : Option String) : String :=
  match name with
  | none => ""
  | some s => if s = "" then "" else normalizeNameStr s

/-- The normalization the SQL side applies in the duplicate check:
`regexp_replace(lower(name), '[^a-z0-9]', '', 'g')` — lowercase then
strip, with no trim. -/
def sqlNormName (s : String) : String :=
  ⟨(s.data.map Char.toLower).filter isLowerAlnum⟩

-- ── basic facts about the normalizers ──────────────────────────────────

theorem dropWhile_eq_self_of {p : Char → Bool} {l : List Char}
    (h : ∀ c ∈ l, p c = false) : l.dropWhile p = l := by
  cases l with
  | nil => rfl
  | cons c t =>
    rw [List.dropWhile_cons]
    simp [h c (List.mem_cons_self c t)]

theorem jsTrim_sublist (l : List Char) : (jsTrim l).Sublist l := by
  unfold jsTrim
  have h1 : ((l.dropWhile Char.isWhitespace).reverse.dropWhile Char.isWhitespace).Sublist
      (l.dropWhile Char.isWhitespace).reverse := List.dropWhile_sublist _
  have h2 := h1.reverse
  rw [List.reverse_reverse] at h2
  exact h2.trans (List.dropWhile_sublist _)

theorem jsTrim_eq_self {l : List Char}
    (h : ∀ c ∈ l, Char.isWhitespace c = false) : jsTrim l = l := by
  unfold jsTrim
  rw [dropWhile_eq_self_of h,
      dropWhile_eq_self_of (by intro c hc; exact h c (List.mem_reverse.mp hc)),
      List.reverse_reverse]

theorem isLowerAlnum_not_ws {c : Char} (h : isLowerAlnum c = true) :
    Char.isWhitespace c = false := by
  simp only [isLowerAlnum, decide_eq_true_eq] at h
  have h48 : 48 ≤ c.toNat := by omega
  have k : ∀ d : Char, d.toNat < 48 → decide (c = d) = false := by
    intro d hd
    simp only [decide_eq_false_iff_not]
    intro hcd
    subst hcd
    omega
  simp only [Char.isWhitespace, k ' ' (by decide), k '\t' (by decide),
    k '\r' (by decide), k '\n' (by decide), Bool.or_false]

theorem toLower_fix {c : Char} (h : isLowerAlnum c = true) :
    Char.toLower c = c := by
  simp only [isLowerAlnum, decide_eq_true_eq] at h
  have hn : ¬(c.toNat ≥ 65 ∧ c.toNat ≤ 90) := by omega
  rw [show Char.toLower c =
      (if c.toNat ≥ 65 ∧ c.toNat ≤ 90 then Char.ofNat (c.toNat + 32) else c) from rfl,
    if_neg hn]

theorem toLower_lowerAlnum {c : Char} (h : isLowerAlnum c = true) :
    isLowerAlnum (Char.toLower c) = true := by
  rw [toLower_fix h]; exact h

theorem map_eq_self_of {f : Char → Char} {l : List Char}
    (h : ∀ c ∈ l, f c = c) : l.map f = l := by
  induction l with
  | nil => rfl
  | cons c t ih =>
    rw [List.map_cons, h c (List.mem_cons_self c t),
      ih (fun d hd => h d (List.mem_cons_of_mem c hd))]

theorem digitsStr_all (s : String) : (digitsStr s).data.all Char.isDigit = true := by
  rw [List.all_eq_true]
  intro x hx
  exact (List.mem_filter.mp hx).2

theorem digitsStr_sublist (s : String) : (digitsStr s).data.Sublist s.data :=
  List.filter_sublist _

theorem digitsStr_fix {s : String} (h : s.data.all Char.isDigit = true) :
    digitsStr s = s := by
  unfold digitsStr
  rw [List.filter_eq_self.mpr (List.all_eq_true.mp h)]

theorem normalizeNameStr_all (s : String) :
    (normalizeNameStr s).data.all isLowerAlnum = true := by
  rw [List.all_eq_true]
  intro x hx
  exact (List.mem_filter.mp hx).2

theorem normalizeNameStr_sublist (s : String) :
    (normalizeNameStr s).data.Sublist (s.data.map Char.toLower) := by
  have h1 : (normalizeNameStr s).data.Sublist ((jsTrim s.data).map Char.toLower) :=
    List.filter_sublist _
  exact h1.trans ((jsTrim_sublist s.data).map Char.toLower)

theorem normalizeNameStr_fix {s : String} (h : s.data.all isLowerAlnum = true) :
    normalizeNameStr s = s := by
  have hall := List.all_eq_true.mp h
  unfold normalizeNameStr
  rw [jsTrim_eq_self (fun c hc => isLowerAlnum_not_ws (hall c hc)),
    map_eq_self_of (fun c hc => toLower_fix (hall c hc)),
    List.filter_eq_self.mpr hall]

theorem normalizeName_some (s : String) : normalizeName (some s) = normalizeNameStr s := by
  by_cases h : s = ""
  · subst h; rfl
  · simp only [normalizeName, if_neg h]

/-- Trimming before lowercase-and-strip changes nothing: the characters
that `trim` removes are whitespace, which the `[^a-z0-9]` strip removes
anyway.  Hence the JS normalization (`normalizeName`) and the SQL-side
normalization (`regexp_replace(lower(name), ...)`, which does not trim)
agree on every string. -/
theorem filter_map_dropWhile_ws (l : List Char) :
    ((l.dropWhile Char.isWhitespace).map Char.toLower).filter isLowerAlnum =
      (l.map Char.toLower).filter isLowerAlnum := by
  induction l with
  | nil => rfl
  | cons c t ih =>
    rw [List.dropWhile_cons]
    by_cases hw : Char.isWhitespace c = true
    · have hlow : isLowerAlnum (Char.toLower c) = false := by
        simp only [Char.isWhitespace, Bool.or_eq_true, decide_eq_true_eq] at hw
        rcases hw with ((h1 | h1) | h1) | h1 <;> (rw [h1]; decide)
      rw [if_pos hw, ih, List.map_cons, List.filter_cons, hlow]
      simp
    · rw [if_neg hw]

theorem sqlNormName_eq (s : String) : sqlNormName s = normalizeNameStr s := by
  unfold sqlNormName normalizeNameStr jsTrim
  apply congrArg String.mk
  rw [List.map_reverse, List.filter_reverse, filter_map_dropWhile_ws,
    ← List.filter_reverse, ← List.map_reverse, List.reverse_reverse,
    filter_map_dropWhile_ws]

-- ── data model ────────────────────────────────────────────────────────

/-- The slice of the events table the attendee routes read:
`SELECT is_finished FROM events WHERE id = $1`. -/
structure Event where
  id : Nat
  is_finished : Bool
deriving DecidableEq, Repr

/-- A row of the attendees table (migrate.js), minus the `created_at` and
`updated_at` audit columns which no claim mentions.  `none` models SQL
NULL, and `checked_in_at` holds the model clock value at check-in. -/
structure Attendee where
  id : Nat
  event_id : Nat
  name : String
  phone_number : Option String
  email : Option String
  checked_in : Bool
  checked_in_at : Option Nat
  source : String
deriving DecidableEq, Repr

/-- Persistent state: the two tables, the SERIAL id counter for
attendees, and a clock standing in for `NOW()`. -/
structure DB where
  events : List Event
  attendees : List Attendee
  nextId : Nat
  now : Nat
deriving DecidableEq, Repr

/-- The `duplicateMatch` object built in the import loop. -/
structure DupMatch where
  matchedBy : String
  existingName : String
  existingPhone : Option String
deriving DecidableEq, Repr

/-- One entry pushed onto the `duplicates` array of the import response. -/
structure DupRow where
  name : String
  phone : Option String
  email : Option String
  rowIndex : Nat
  matchedBy : String
  existingName : String
  existingPhone : Option String
deriving DecidableEq, Repr

/-- One sheet row after XLSX parsing and column resolution: the cell
under the resolved name column (missing cells default to `""`), and the
cells under the phone/email columns, `none` when that column was not
resolved at all. -/
structure Row where
  name : String
  phone : Option String
  email : Option String
deriving DecidableEq, Repr

/-- One entry of the client-supplied `duplicates` array of the
confirm-duplicates request; a falsy `name` is modelled as `""`. -/
structure Cand where
  name : String
  phone : Option String
  email : Option String
deriving DecidableEq, Repr

/-- The responses the attendee handlers can produce, by status code:
201, 200 (several shapes), 400, 403, 404, 409, 500. -/
inductive Resp where
  | created (a : Attendee)
  | okCheckIn (a : Attendee)
  | okUndo (a : Attendee)
  | okDeleted
  | okCleared
  | okImport (imported skipped : Nat) (duplicates : List DupRow)
  | okConfirm (imported : Nat)
  | badRequest (msg : String)
  | forbidden (msg : String)
  | notFound (msg : String)
  | conflict (a : Attendee)
  | serverError (msg : String)
deriving DecidableEq, Repr

/-- JavaScript truthiness of a nullable string. -/
def truthy : Option String → Bool
  | none => false
  | some s => !(s == "")

/-- `x || null`: the empty string is coerced to null before INSERT. -/
def jsOrNull : Option String → Option String
  | none => none
  | some s => if s = "" then none else some s

/-- The finished-event gate as the handlers write it:
`eventCheck.rows[0]?.is_finished` — optional chaining, so a missing
event yields `undefined`, which is falsy and passes the gate. -/
def isFinishedCheck (db : DB) (eventId : Nat) : Bool :=
  match db.events.find? (fun e => e.id == eventId) with
  | some e => e.is_finished
  | none => false

/-- `getEventStats`: total attendees and checked-in count of one event. -/
def getEventStats (db : DB) (eventId : Nat) : Nat × Nat :=
  ((db.attendees.filter (fun a => a.event_id == eventId)).length,
   (db.attendees.filter (fun a => a.event_id == eventId && a.checked_in)).length)

/-- The WHERE clause of the phone duplicate query:
`event_id = $1 AND regexp_replace(phone_number, '\D', '', 'g') = $2`.
A NULL stored phone never matches (SQL NULL propagation). -/
def attMatchesPhone (eventId : Nat) (normPhone : String) (a : Attendee) : Bool :=
  a.event_id == eventId &&
    (match a.phone_number with
     | some q => digitsStr q == normPhone
     | none => false)

/-- The WHERE clause of the name duplicate query:
`event_id = $1 AND regexp_replace(lower(name), '[^a-z0-9]', '', 'g') = $2`. -/
def attMatchesName (eventId : Nat) (normName : String) (a : Attendee) : Bool :=
  a.event_id == eventId && sqlNormName a.name == normName

/-- The duplicate check of the import loop: phone criterion first (only
when the normalized candidate phone is truthy), then the name criterion;
each query takes the first matching row (`LIMIT 1` in list order). -/
def duplicateMatch (atts : List Attendee) (eventId : Nat)
    (name : String) (phone : Option String) : Option DupMatch :=
  let phoneRes : Option DupMatch :=
    match normalizePhone phone with
    | none => none
    | some d =>
      if d = "" then none
      else
        match atts.find? (attMatchesPhone eventId d) with
        | some a => some ⟨"phone", a.name, a.phone_number⟩
        | none => none
  match phoneRes with
  | some m => some m
  | none =>
    match atts.find? (attMatchesName eventId (normalizeName (some name))) with
    | some a => some ⟨"name", a.name, a.phone_number⟩
    | none => none

-- ── route handlers ────────────────────────────────────────────────────

/-- The row the manual-add INSERT writes: the validator has trimmed the
name and the phone, `x || null` has mapped empty strings to NULL, and
the source column defaults through the explicit `'manual'` literal. -/
def manualRecord (db : DB) (eventId : Nat)
    (name : String) (phone_number email : Option String) : Attendee :=
  { id := db.nextId, event_id := eventId, name := jsTrimStr name,
    phone_number := jsOrNull (phone_number.map jsTrimStr),
    email := jsOrNull email,
    checked_in := false, checked_in_at := none, source := "manual" }

/-- POST `/` (create single attendee): express-validator rejects an
empty/absent name; the finished gate runs next; then the INSERT, which
violates the `event_id REFERENCES events(id)` constraint when the event
does not exist, landing in the catch block as a 500. -/
def addAttendee (db : DB) (eventId : Nat)
    (name : String) (phone_number email : Option String) : Resp × DB :=
  if name = "" then (.badRequest "Invalid value", db)
  else if isFinishedCheck db eventId then
    (.forbidden "This event has been finished. Adding attendees is disabled.", db)
  else if (db.events.find? (fun e => e.id == eventId)).isNone then
    (.serverError "Server error", db)
  else
    let a := manualRecord db eventId name phone_number email
    (.created a,
     { db with attendees := db.attendees ++ [a], nextId := db.nextId + 1 })

/-- Transaction-local state of the import loop.  `atts` is the roster as
seen by queries on the importing connection: rows inserted earlier in
the same open transaction are visible to later SELECTs of the same pass.
`insertsDone` counts INSERTs, for fault injection. -/
structure TxState where
  atts : List Attendee
  nextId : Nat
  imported : Nat
  skipped : Nat
  dups : List DupRow
  insertsDone : Nat
deriving DecidableEq, Repr

/-- The row the import INSERT writes for a sheet row: trimmed name and
cells, `x || null` on phone and email, source `'import'`. -/
def importedRecord (eventId nid : Nat) (row : Row) : Attendee :=
  { id := nid, event_id := eventId, name := jsTrimStr row.name,
    phone_number := jsOrNull (row.phone.map jsTrimStr),
    email := jsOrNull (row.email.map jsTrimStr),
    checked_in := false, checked_in_at := none, source := "import" }

/-- One iteration of the `for (const row of rows)` import loop.
`failAt = some k` makes the (k+1)-st INSERT of the pass raise,
modelling an unexpected storage failure. -/
def importStep (eventId : Nat) (failAt : Option Nat)
    (st : TxState) (idx : Nat) (row : Row) : Except Unit TxState :=
  let name := jsTrimStr row.name
  if name = "" then
    .ok { st with skipped := st.skipped + 1 }
  else
    let phone := row.phone.map jsTrimStr
    let email := row.email.map jsTrimStr
    match duplicateMatch st.atts eventId name phone with
    | some m =>
      .ok { st with dups := st.dups ++
        [⟨name, phone, email, idx + 2, m.matchedBy, m.existingName, m.existingPhone⟩] }
    | none =>
      if failAt = some st.insertsDone then .error ()
      else
        .ok { st with atts := st.atts ++ [importedRecord eventId st.nextId row],
                      nextId := st.nextId + 1,
                      imported := st.imported + 1, insertsDone := st.insertsDone + 1 }

/-- The per-row loop, threading the transaction state; an error aborts
the rest of the pass (the thrown exception reaches the ROLLBACK). -/
def importLoop (eventId : Nat) (failAt : Option Nat) :
    List Row → Nat → TxState → Except Unit TxState
  | [], _, st => .ok st
  | row :: rest, idx, st =>
    match importStep eventId failAt st idx row with
    | .error e => .error e
    | .ok st' => importLoop eventId failAt rest (idx + 1) st'

/-- POST `/import`, from the point where the sheet has been parsed into
`rows` and the name/phone/email columns resolved: finished gate, empty
check, then one BEGIN/COMMIT transaction around the loop; a loop error
triggers ROLLBACK (the durable state stays as it was) and a 500. -/
def importAttendees (db : DB) (eventId : Nat) (rows : List Row)
    (failAt : Option Nat) : Resp × DB :=
  if isFinishedCheck db eventId then
    (.forbidden "This event has been finished. Importing attendees is disabled.", db)
  else if rows.isEmpty then
    (.badRequest "File is empty or has no data", db)
  else
    match importLoop eventId failAt rows 0
        ⟨db.attendees, db.nextId, 0, 0, [], 0⟩ with
    | .ok st =>
      (.okImport st.imported st.skipped st.dups,
       { db with attendees := st.atts, nextId := st.nextId })
    | .error _ => (.serverError "Error processing file", db)

/-- Loop of POST `/import-duplicates`: candidates with a falsy name are
skipped, the rest are inserted verbatim with source `import`. -/
def confirmLoop (eventId : Nat) :
    List Cand → List Attendee × Nat × Nat → List Attendee × Nat × Nat
  | [], st => st
  | c :: cs, (atts, nid, imp) =>
    if c.name = "" then confirmLoop eventId cs (atts, nid, imp)
    else
      confirmLoop eventId cs
        (atts ++ [{ id := nid, event_id := eventId, name := c.name,
                    phone_number := jsOrNull c.phone, email := jsOrNull c.email,
                    checked_in := false, checked_in_at := none,
                    source := "import" }],
         nid + 1, imp + 1)

/-- POST `/import-duplicates` (confirm duplicates): finished gate, then
one transaction inserting the client-chosen candidates verbatim. -/
def confirmDuplicates (db : DB) (eventId : Nat) (cands : List Cand) : Resp × DB :=
  if isFinishedCheck db eventId then
    (.forbidden "This event has been finished. Importing attendees is disabled.", db)
  else
    let st := confirmLoop eventId cands (db.attendees, db.nextId, 0)
    (.okConfirm st.2.2, { db with attendees := st.1, nextId := st.2.1 })

/-- PATCH `/:attendeeId/checkin`: explicit event-existence check (404),
finished gate (403), attendee lookup (404), already-checked-in conflict
(409, returning the current row unchanged), else the UPDATE setting the
flag and the timestamp. -/
def checkIn (db : DB) (eventId attendeeId : Nat) : Resp × DB :=
  match db.events.find? (fun e => e.id == eventId) with
  | none => (.notFound "Event not found", db)
  | some e =>
    if e.is_finished then
      (.forbidden
        "This event has been finished. Check-in is disabled. Restart the event to allow check-ins again.",
       db)
    else
      match db.attendees.find? (fun a => a.id == attendeeId && a.event_id == eventId) with
      | none => (.notFound "Attendee not found", db)
      | some a =>
        if a.checked_in then (.conflict a, db)
        else
          let a' := { a with checked_in := true, checked_in_at := some db.now }
          (.okCheckIn a',
           { db with attendees := db.attendees.map (fun b =>
               if b.id == attendeeId && b.event_id == eventId then
                 { b with checked_in := true, checked_in_at := some db.now }
               else b) })

/-- PATCH `/:attendeeId/undo-checkin`: no finished gate; the UPDATE runs
directly and a missing attendee surfaces as 404 via RETURNING. -/
def undoCheckIn (db : DB) (eventId attendeeId : Nat) : Resp × DB :=
  match db.attendees.find? (fun a => a.id == attendeeId && a.event_id == eventId) with
  | none => (.notFound "Attendee not found", db)
  | some a =>
    let a' := { a with checked_in := false, checked_in_at := none }
    (.okUndo a',
     { db with attendees := db.attendees.map (fun b =>
         if b.id == attendeeId && b.event_id == eventId then
           { b with checked_in := false, checked_in_at := none }
         else b) })

/-- DELETE `/:attendeeId`: finished gate (optional chaining), then the
DELETE with RETURNING (404 when nothing matched). -/
def deleteAttendee (db : DB) (eventId attendeeId : Nat) : Resp × DB :=
  if isFinishedCheck db eventId then
    (.forbidden "This event has been finished. Deleting attendees is disabled.", db)
  else
    match db.attendees.find? (fun a => a.id == attendeeId && a.event_id == eventId) with
    | none => (.notFound "Attendee not found", db)
    | some _ =>
      (.okDeleted,
       { db with attendees :=
           db.attendees.filter (fun a => !(a.id == attendeeId && a.event_id == eventId)) })

/-- DELETE `/` (clear all attendees): the handler runs the bulk DELETE
with no finished-event check and no existence check. -/
def clearAttendees (db : DB) (eventId : Nat) : Resp × DB :=
  (.okCleared,
   { db with attendees := db.attendees.filter (fun a => !(a.event_id == eventId)) })

-- ── claims ────────────────────────────────────────────────────────────

/-- C7 counterexample.  The claim "normalizePhone(normalizePhone(x)) =
normalizePhone(x) for every x" fails at x = "abc": the first application
returns the empty string (truthy input, no digits), and re-normalizing
the empty string returns null, which differs from the empty string. -/
theorem c7_phone_not_idempotent_cex :
    normalizePhone (normalizePhone (some "abc")) ≠ normalizePhone (some "abc") := by
  decide

/-- C7, amended: normalizeName is idempotent on every input, and
normalizePhone is idempotent on every input except those it maps to the
empty string (truthy inputs with no digit character), where the second
application turns the empty string into null. -/
theorem c7_normalize_idempotent_amended (x : Option String) :
    normalizeName (some (normalizeName x)) = normalizeName x ∧
    (normalizePhone x ≠ some "" →
      normalizePhone (normalizePhone x) = normalizePhone x) := by
  constructor
  · cases x with
    | none =>
      show normalizeName (some "") = ""
      rfl
    | some s =>
      rw [normalizeName_some s, normalizeName_some,
        normalizeNameStr_fix (normalizeNameStr_all s)]
  · intro hne
    cases x with
    | none => rfl
    | some s =>
      by_cases hs : s = ""
      · subst hs; rfl
      · have h1 : normalizePhone (some s) = some (digitsStr s) := by
          simp only [normalizePhone, if_neg hs]
        rw [h1] at hne ⊢
        have hd : digitsStr s ≠ "" := fun h => hne (by rw [h])
        simp only [normalizePhone, if_neg hd, digitsStr_fix (digitsStr_all s)]

/-- C7 witness: the amended theorem applied to a name with punctuation
and to a phone number that does contain digits. -/
theorem c7_normalize_idempotent_amended_witness :
    normalizePhone (some "0812-34") ≠ some "" ∧
    normalizeName (some (normalizeName (some "John Doe"))) = normalizeName (some "John Doe") ∧
    normalizePhone (normalizePhone (some "0812-34")) = normalizePhone (some "0812-34") :=
  ⟨by decide, (c7_normalize_idempotent_amended (some "John Doe")).1,
   (c7_normalize_idempotent_amended (some "0812-34")).2 (by decide)⟩

/-- C8: the normalized phone key holds only digit characters of the
input in their original order, with empty/absent input producing the
null (empty) key; the normalized name holds only characters of
`[a-z0-9]`, in their input order after lowercasing. -/
theorem c8_normalizer_charset (s : String) :
    (∀ t, normalizePhone (some s) = some t →
        t.data.all Char.isDigit = true ∧ t.data.Sublist s.data) ∧
    normalizePhone none = none ∧
    normalizePhone (some "") = none ∧
    (normalizeName (some s)).data.all isLowerAlnum = true ∧
    (normalizeName (some s)).data.Sublist (s.data.map Char.toLower) := by
  refine ⟨?_, rfl, by decide, ?_, ?_⟩
  · intro t ht
    by_cases hs : s = ""
    · subst hs
      simp [normalizePhone] at ht
    · simp only [normalizePhone, if_neg hs, Option.some.injEq] at ht
      subst ht
      exact ⟨digitsStr_all s, digitsStr_sublist s⟩
  · rw [normalizeName_some]
    exact normalizeNameStr_all s
  · rw [normalizeName_some]
    exact normalizeNameStr_sublist s

/-- C8 witness: the only-digits/sublist conjunct discharged on a phone
string with punctuation and a letter. -/
theorem c8_normalizer_charset_witness :
    normalizePhone (some "+62 812a") = some "62812" ∧
    "62812".data.all Char.isDigit = true ∧
    "62812".data.Sublist "+62 812a".data :=
  ⟨by decide, (c8_normalizer_charset "+62 812a").1 "62812" (by decide)⟩

/-- C4: the Duplicate Matcher short-circuits in order.  When the
candidate normalized phone is truthy and some attendee of the event
matches it, the result is the phone descriptor of the first such row —
whatever the name criterion would say.  When the phone criterion
produces nothing, a name match yields the name descriptor, and with
neither criterion matching the result is no-match. -/
theorem c4_matcher_short_circuit (atts : List Attendee) (eventId : Nat)
    (name : String) (phone : Option String) :
    (∀ d a, normalizePhone phone = some d → d ≠ "" →
        atts.find? (attMatchesPhone eventId d) = some a →
        duplicateMatch atts eventId name phone = some ⟨"phone", a.name, a.phone_number⟩) ∧
    (∀ a, (∀ d, normalizePhone phone = some d → d ≠ "" →
            atts.find? (attMatchesPhone eventId d) = none) →
        atts.find? (attMatchesName eventId (normalizeName (some name))) = some a →
        duplicateMatch atts eventId name phone = some ⟨"name", a.name, a.phone_number⟩) ∧
    ((∀ d, normalizePhone phone = some d → d ≠ "" →
            atts.find? (attMatchesPhone eventId d) = none) →
        atts.find? (attMatchesName eventId (normalizeName (some name))) = none →
        duplicateMatch atts eventId name phone = none) := by
  refine ⟨?_, ?_, ?_⟩
  · intro d a hd hne hfind
    simp only [duplicateMatch, hd, if_neg hne, hfind]
  · intro a hnone hfind
    cases hp : normalizePhone phone with
    | none => simp only [duplicateMatch, hp, hfind]
    | some d =>
      by_cases hde : d = ""
      · subst hde
        simp [duplicateMatch, hp, hfind]
      · simp only [duplicateMatch, hp, if_neg hde, hnone d hp hde, hfind]
  · intro hnone hfind
    cases hp : normalizePhone phone with
    | none => simp only [duplicateMatch, hp, hfind]
    | some d =>
      by_cases hde : d = ""
      · subst hde
        simp [duplicateMatch, hp, hfind]
      · simp only [duplicateMatch, hp, if_neg hde, hnone d hp hde, hfind]

/-- Roster used by the C4 witness. -/
def bobRec : Attendee := ⟨1, 1, "Bob", some "0811", none, false, none, "manual"⟩

/-- C4 witness: each of the three branches discharged on a concrete
one-attendee roster (phone match wins even though no name matches; name
fallback; no match at all). -/
theorem c4_matcher_short_circuit_witness :
    duplicateMatch [bobRec] 1 "Alice" (some "0811-x") = some ⟨"phone", "Bob", some "0811"⟩ ∧
    duplicateMatch [bobRec] 1 "BOB!" none = some ⟨"name", "Bob", some "0811"⟩ ∧
    duplicateMatch [bobRec] 1 "Carol" none = none :=
  ⟨(c4_matcher_short_circuit [bobRec] 1 "Alice" (some "0811-x")).1 "0811" bobRec
      (by decide) (by decide) (by decide),
   (c4_matcher_short_circuit [bobRec] 1 "BOB!" none).2.1 bobRec
      (fun d hd _ => Option.noConfusion hd) (by decide),
   (c4_matcher_short_circuit [bobRec] 1 "Carol" none).2.2
      (fun d hd _ => Option.noConfusion hd) (by decide)⟩

/-- C6: checkIn on an attendee already checked in (event present and not
finished) answers 409 Conflict carrying the current row, and leaves the
whole state — hence the stored timestamp and the statistics — exactly as
it was. -/
theorem c6_checkin_conflict (db : DB) (eventId attendeeId : Nat) (e : Event) (a : Attendee)
    (he : db.events.find? (fun ev => ev.id == eventId) = some e)
    (hf : e.is_finished = false)
    (ha : db.attendees.find? (fun b => b.id == attendeeId && b.event_id == eventId) = some a)
    (hc : a.checked_in = true) :
    checkIn db eventId attendeeId = (.conflict a, db) ∧
    getEventStats (checkIn db eventId attendeeId).2 eventId = getEventStats db eventId := by
  have h1 : checkIn db eventId attendeeId = (.conflict a, db) := by
    simp only [checkIn, he, hf, ha, hc, Bool.false_eq_true, if_false, if_true]
  exact ⟨h1, by rw [h1]⟩

/-- State used by the C6 witness: one active event, one attendee checked
in at time 5. -/
def dbC6 : DB :=
  ⟨[⟨1, false⟩], [⟨1, 1, "Ann", some "0812", none, true, some 5, "manual"⟩], 2, 9⟩

/-- C6 witness: the second check-in of Ann conflicts, returns her row
with the original timestamp 5, and the statistics stay (1, 1). -/
theorem c6_checkin_conflict_witness :
    checkIn dbC6 1 1 = (.conflict ⟨1, 1, "Ann", some "0812", none, true, some 5, "manual"⟩, dbC6) ∧
    getEventStats (checkIn dbC6 1 1).2 1 = getEventStats dbC6 1 :=
  c6_checkin_conflict dbC6 1 1 ⟨1, false⟩ ⟨1, 1, "Ann", some "0812", none, true, some 5, "manual"⟩
    (by decide) (by decide) (by decide) (by decide)

/-- A finished event with one attendee, for the C1 counterexample and
witness. -/
def dbFin : DB :=
  ⟨[⟨1, true⟩], [⟨1, 1, "Ann", some "0812", none, false, none, "manual"⟩], 2, 0⟩

/-- C1 counterexample.  The claim lists bulk deletion (clear all
attendees) among the operations that a finished event forbids, but the
clear-all handler has no finished-event gate: on a finished event with
one attendee it answers success and empties the roster instead of
returning Forbidden and leaving the roster unmodified. -/
theorem c1_clear_ungated_cex :
    clearAttendees dbFin 1 = (.okCleared, { dbFin with attendees := [] }) ∧
    (clearAttendees dbFin 1).2.attendees ≠ dbFin.attendees := by
  decide

/-- C1, amended: on an event whose finished flag is observed true by the
gate, manual add, import, confirm-duplicates, check-in and single
attendee deletion each return 403 Forbidden with the state untouched;
undoCheckIn and bulk deletion (clear all attendees) are the two ungated
mutations — neither can ever answer Forbidden, and clear-all goes on to
empty the event roster. -/
theorem c1_finished_gate_amended (db : DB) (eventId : Nat)
    (hfin : isFinishedCheck db eventId = true) :
    (∀ name phone email, name ≠ "" →
        addAttendee db eventId name phone email =
          (.forbidden "This event has been finished. Adding attendees is disabled.", db)) ∧
    (∀ rows failAt, importAttendees db eventId rows failAt =
        (.forbidden "This event has been finished. Importing attendees is disabled.", db)) ∧
    (∀ cands, confirmDuplicates db eventId cands =
        (.forbidden "This event has been finished. Importing attendees is disabled.", db)) ∧
    (∀ attendeeId, checkIn db eventId attendeeId =
        (.forbidden "This event has been finished. Check-in is disabled. Restart the event to allow check-ins again.", db)) ∧
    (∀ attendeeId, deleteAttendee db eventId attendeeId =
        (.forbidden "This event has been finished. Deleting attendees is disabled.", db)) ∧
    (∀ attendeeId msg, (undoCheckIn db eventId attendeeId).1 ≠ .forbidden msg) ∧
    (∀ msg, (clearAttendees db eventId).1 ≠ .forbidden msg) ∧
    (clearAttendees db eventId).2.attendees =
      db.attendees.filter (fun a => !(a.event_id == eventId)) := by
  refine ⟨?_, ?_, ?_, ?_, ?_, ?_, ?_, rfl⟩
  · intro name phone email hn
    unfold addAttendee
    rw [if_neg hn, if_pos hfin]
  · intro rows failAt
    unfold importAttendees
    rw [if_pos hfin]
  · intro cands
    unfold confirmDuplicates
    rw [if_pos hfin]
  · intro attendeeId
    unfold isFinishedCheck at hfin
    cases he : db.events.find? (fun e => e.id == eventId) with
    | none => rw [he] at hfin; exact absurd hfin (by decide)
    | some e =>
      rw [he] at hfin
      have hf : e.is_finished = true := hfin
      simp only [checkIn, he, hf, if_true]
  · intro attendeeId
    unfold deleteAttendee
    rw [if_pos hfin]
  · intro attendeeId msg
    unfold undoCheckIn
    cases db.attendees.find? (fun a => a.id == attendeeId && a.event_id == eventId) with
    | none => simp
    | some a => simp
  · intro msg
    unfold clearAttendees
    simp

/-- C1 witness: the gated operations all refuse the finished event
`dbFin`, while undo-check-in and clear-all go through. -/
theorem c1_finished_gate_amended_witness :
    addAttendee dbFin 1 "Bob" none none =
      (.forbidden "This event has been finished. Adding attendees is disabled.", dbFin) ∧
    importAttendees dbFin 1 [⟨"Bob", none, none⟩] none =
      (.forbidden "This event has been finished. Importing attendees is disabled.", dbFin) ∧
    confirmDuplicates dbFin 1 [⟨"Bob", none, none⟩] =
      (.forbidden "This event has been finished. Importing attendees is disabled.", dbFin) ∧
    checkIn dbFin 1 1 =
      (.forbidden "This event has been finished. Check-in is disabled. Restart the event to allow check-ins again.", dbFin) ∧
    deleteAttendee dbFin 1 1 =
      (.forbidden "This event has been finished. Deleting attendees is disabled.", dbFin) ∧
    (undoCheckIn dbFin 1 1).1 ≠ .forbidden "This event has been finished." ∧
    (clearAttendees dbFin 1).1 ≠ .forbidden "This event has been finished." :=
  ⟨(c1_finished_gate_amended dbFin 1 (by decide)).1 "Bob" none none (by decide),
   (c1_finished_gate_amended dbFin 1 (by decide)).2.1 [⟨"Bob", none, none⟩] none,
   (c1_finished_gate_amended dbFin 1 (by decide)).2.2.1 [⟨"Bob", none, none⟩],
   (c1_finished_gate_amended dbFin 1 (by decide)).2.2.2.1 1,
   (c1_finished_gate_amended dbFin 1 (by decide)).2.2.2.2.1 1,
   (c1_finished_gate_amended dbFin 1 (by decide)).2.2.2.2.2.1 1 "This event has been finished.",
   (c1_finished_gate_amended dbFin 1 (by decide)).2.2.2.2.2.2.1 "This event has been finished."⟩

/-- The empty database, for the C9 counterexample. -/
def dbEmpty : DB := ⟨[], [], 1, 0⟩

/-- C9 counterexample.  With no event 1, addAttendee does not answer Not
Found: the gate `rows[0]?.is_finished` is undefined hence falsy, the
INSERT is issued, the foreign-key constraint rejects it, and the catch
block answers 500 Server error. -/
theorem c9_add_missing_event_cex :
    addAttendee dbEmpty 1 "Alice" none none = (.serverError "Server error", dbEmpty) ∧
    (addAttendee dbEmpty 1 "Alice" none none).1 ≠ .notFound "Event not found" := by
  decide

/-- C9, amended: when the event identifier does not resolve, manual add
is not rejected with Not Found before the write; the finished gate
passes vacuously, the INSERT is issued and fails the foreign-key
constraint, and the handler answers 500 Server error — though no
attendee row is committed (the state is unchanged). -/
theorem c9_add_missing_event_amended (db : DB) (eventId : Nat)
    (name : String) (phone email : Option String) (hn : name ≠ "")
    (he : db.events.find? (fun e => e.id == eventId) = none) :
    addAttendee db eventId name phone email = (.serverError "Server error", db) := by
  unfold addAttendee
  have hfin : isFinishedCheck db eventId = false := by
    unfold isFinishedCheck
    rw [he]
  rw [if_neg hn, hfin]
  simp [he]

/-- C9 witness: the amended behaviour on the empty database. -/
theorem c9_add_missing_event_amended_witness :
    addAttendee dbEmpty 2 "Bea" (some "08") none = (.serverError "Server error", dbEmpty) :=
  c9_add_missing_event_amended dbEmpty 2 "Bea" (some "08") none (by decide) (by decide)

/-- C10: manual add runs no duplicate detection — whatever the roster
already holds (including an attendee with the very same name and phone),
a non-empty name on an existing unfinished event always inserts a fresh
row with source manual. -/
theorem c10_manual_add_no_dedup (db : DB) (eventId : Nat)
    (name : String) (phone email : Option String) (e : Event)
    (he : db.events.find? (fun ev => ev.id == eventId) = some e)
    (hf : e.is_finished = false) (hn : name ≠ "") :
    addAttendee db eventId name phone email =
      (.created (manualRecord db eventId name phone email),
       { db with attendees := db.attendees ++ [manualRecord db eventId name phone email],
                 nextId := db.nextId + 1 }) := by
  unfold addAttendee
  have hfin : isFinishedCheck db eventId = false := by
    unfold isFinishedCheck
    rw [he]
    exact hf
  rw [if_neg hn, hfin]
  simp [he]

/-- Roster for the C10 witness: event 1 already holds exactly
{John Doe, 0812}. -/
def dbDup : DB :=
  ⟨[⟨1, false⟩], [⟨1, 1, "John Doe", some "0812", none, false, none, "manual"⟩], 2, 0⟩

/-- C10 witness: adding John Doe with the identical phone a second time
still inserts (no duplicate check on the manual path). -/
theorem c10_manual_add_no_dedup_witness :
    addAttendee dbDup 1 "John Doe" (some "0812") none =
      (.created (manualRecord dbDup 1 "John Doe" (some "0812") none),
       { dbDup with
           attendees := dbDup.attendees ++ [manualRecord dbDup 1 "John Doe" (some "0812") none],
           nextId := dbDup.nextId + 1 }) :=
  c10_manual_add_no_dedup dbDup 1 "John Doe" (some "0812") none ⟨1, false⟩
    (by decide) (by decide) (by decide)

/-- C5: if an INSERT inside the import loop raises (any unexpected
failure, injected through `failAt`), the handler rolls the transaction
back — the returned state is exactly the pre-import state, so zero rows
of the import are committed — and the caller sees a 500 error. -/
theorem c5_import_rollback (db : DB) (eventId : Nat) (rows : List Row)
    (failAt : Option Nat)
    (hgate : isFinishedCheck db eventId = false)
    (hne : rows.isEmpty = false)
    (herr : importLoop eventId failAt rows 0 ⟨db.attendees, db.nextId, 0, 0, [], 0⟩ =
      .error ()) :
    importAttendees db eventId rows failAt =
      (.serverError "Error processing file", db) := by
  unfold importAttendees
  rw [hgate, hne, herr]
  rfl

/-- Database for the C5 witness: one active empty event. -/
def dbImp : DB := ⟨[⟨1, false⟩], [], 1, 0⟩

/-- C5 witness: a one-row import whose very first INSERT fails commits
nothing and answers 500. -/
theorem c5_import_rollback_witness :
    importAttendees dbImp 1 [⟨"Jane", some "0811", none⟩] (some 0) =
      (.serverError "Error processing file", dbImp) :=
  c5_import_rollback dbImp 1 [⟨"Jane", some "0811", none⟩] (some 0)
    (by decide) (by decide) (by rfl)

/-- Splitting a no-match verdict of the Duplicate Matcher into the
underlying facts: no phone hit (whenever the phone criterion was even
consulted) and no name hit. -/
theorem duplicateMatch_none_elim {atts : List Attendee} {eventId : Nat}
    {name : String} {phone : Option String}
    (h : duplicateMatch atts eventId name phone = none) :
    (∀ d, normalizePhone phone = some d → d ≠ "" →
        atts.find? (attMatchesPhone eventId d) = none) ∧
    atts.find? (attMatchesName eventId (normalizeName (some name))) = none := by
  constructor
  · intro d hd hde
    cases hfp : atts.find? (attMatchesPhone eventId d) with
    | none => rfl
    | some a =>
      simp only [duplicateMatch, hd, if_neg hde, hfp] at h
      exact Option.noConfusion h
  · cases hfn : atts.find? (attMatchesName eventId (normalizeName (some name))) with
    | none => rfl
    | some a =>
      cases hp : normalizePhone phone with
      | none =>
        simp only [duplicateMatch, hp, hfn] at h
        exact Option.noConfusion h
      | some d =>
        by_cases hde : d = ""
        · subst hde
          simp [duplicateMatch, hp, hfn] at h
        · cases hfp : atts.find? (attMatchesPhone eventId d) with
          | none =>
            simp only [duplicateMatch, hp, if_neg hde, hfp, hfn] at h
            exact Option.noConfusion h
          | some b =>
            simp only [duplicateMatch, hp, if_neg hde, hfp] at h
            exact Option.noConfusion h

/-- After the loop inserts an attendee `A` carrying the candidate name
and phone, running the Duplicate Matcher for the same name/phone again —
as the second occurrence of an identical row does — hits exactly that
freshly inserted row: by phone when the normalized phone is truthy, by
name otherwise. -/
theorem duplicateMatch_after_self (atts : List Attendee) (eventId : Nat)
    (name : String) (phone : Option String) (A : Attendee)
    (hAe : A.event_id = eventId) (hAn : A.name = name)
    (hAp : A.phone_number = jsOrNull phone)
    (hpre : duplicateMatch atts eventId name phone = none) :
    duplicateMatch (atts ++ [A]) eventId name phone =
      some ⟨(if truthy (normalizePhone phone) then "phone" else "name"),
            A.name, A.phone_number⟩ := by
  obtain ⟨hph, hnm⟩ := duplicateMatch_none_elim hpre
  have hnameA : attMatchesName eventId (normalizeName (some name)) A = true := by
    simp only [attMatchesName, hAe, hAn]
    rw [sqlNormName_eq, normalizeName_some]
    simp
  have hfindName : (atts ++ [A]).find?
      (attMatchesName eventId (normalizeName (some name))) = some A := by
    rw [List.find?_append, hnm, List.find?_cons_of_pos _ hnameA]
    rfl
  cases phone with
  | none =>
    simp only [duplicateMatch, normalizePhone, hfindName]
    rfl
  | some s =>
    by_cases hse : s = ""
    · subst hse
      simp only [duplicateMatch, normalizePhone, hfindName]
      rfl
    · have h1 : normalizePhone (some s) = some (digitsStr s) := by
        simp only [normalizePhone, if_neg hse]
      by_cases hdd : digitsStr s = ""
      · have h2 : normalizePhone (some s) = some "" := by rw [h1, hdd]
        simp only [duplicateMatch, h2, hfindName]
        rfl
      · have hphoneA : attMatchesPhone eventId (digitsStr s) A = true := by
          simp [attMatchesPhone, hAe, hAp, jsOrNull, hse]
        have hfindP : (atts ++ [A]).find?
            (attMatchesPhone eventId (digitsStr s)) = some A := by
          rw [List.find?_append, hph (digitsStr s) h1 hdd,
            List.find?_cons_of_pos _ hphoneA]
          rfl
        have ht : truthy (some (digitsStr s)) = true := by
          simp [truthy, hdd]
        simp only [duplicateMatch, h1, if_neg hdd, hfindP, ht]
        rfl

/-- C2: importing a file that is exactly two copies of the same row
(non-empty trimmed name, no duplicate hit against the pre-existing
roster) imports the first copy and reports the second as a duplicate at
sheet row 3 matched against the attendee the first copy just inserted —
one imported, zero skipped, never both imported and never both
dropped. -/
theorem c2_import_within_file_dedup (db : DB) (eventId : Nat) (r : Row)
    (hgate : isFinishedCheck db eventId = false)
    (hname : jsTrimStr r.name ≠ "")
    (hpre : duplicateMatch db.attendees eventId (jsTrimStr r.name) (r.phone.map jsTrimStr) = none) :
    importAttendees db eventId [r, r] none =
      (.okImport 1 0
        [⟨jsTrimStr r.name, r.phone.map jsTrimStr, r.email.map jsTrimStr, 3,
          (if truthy (normalizePhone (r.phone.map jsTrimStr)) then "phone" else "name"),
          jsTrimStr r.name, jsOrNull (r.phone.map jsTrimStr)⟩],
       { db with attendees := db.attendees ++ [importedRecord eventId db.nextId r],
                 nextId := db.nextId + 1 }) := by
  have hstep0 : importStep eventId none ⟨db.attendees, db.nextId, 0, 0, [], 0⟩ 0 r =
      .ok ⟨db.attendees ++ [importedRecord eventId db.nextId r],
           db.nextId + 1, 1, 0, [], 1⟩ := by
    simp only [importStep, if_neg hname, hpre]
    rfl
  have hstep1 : importStep eventId none
      ⟨db.attendees ++ [importedRecord eventId db.nextId r], db.nextId + 1, 1, 0, [], 1⟩ 1 r =
      .ok ⟨db.attendees ++ [importedRecord eventId db.nextId r], db.nextId + 1, 1, 0,
        [⟨jsTrimStr r.name, r.phone.map jsTrimStr, r.email.map jsTrimStr, 3,
          (if truthy (normalizePhone (r.phone.map jsTrimStr)) then "phone" else "name"),
          jsTrimStr r.name, jsOrNull (r.phone.map jsTrimStr)⟩], 1⟩ := by
    simp only [importStep, if_neg hname,
      duplicateMatch_after_self db.attendees eventId (jsTrimStr r.name)
        (r.phone.map jsTrimStr) (importedRecord eventId db.nextId r) rfl rfl rfl hpre]
    rfl
  have hloop : importLoop eventId none [r, r] 0 ⟨db.attendees, db.nextId, 0, 0, [], 0⟩ =
      .ok ⟨db.attendees ++ [importedRecord eventId db.nextId r], db.nextId + 1, 1, 0,
        [⟨jsTrimStr r.name, r.phone.map jsTrimStr, r.email.map jsTrimStr, 3,
          (if truthy (normalizePhone (r.phone.map jsTrimStr)) then "phone" else "name"),
          jsTrimStr r.name, jsOrNull (r.phone.map jsTrimStr)⟩], 1⟩ := by
    simp only [importLoop, hstep0, hstep1]
  unfold importAttendees
  rw [hgate, hloop]
  rfl

/-- C2 witness: the duplicated row {Jane, 0811} against an empty roster
of the active event 1 — first copy imported, second reported as a
phone-matched duplicate of the first, at sheet row 3. -/
theorem c2_import_within_file_dedup_witness :
    importAttendees dbImp 1 [⟨"Jane", some "0811", none⟩, ⟨"Jane", some "0811", none⟩] none =
      (.okImport 1 0
        [⟨"Jane", some "0811", none, 3, "phone", "Jane", some "0811"⟩],
       { dbImp with
           attendees := dbImp.attendees ++ [importedRecord 1 dbImp.nextId ⟨"Jane", some "0811", none⟩],
           nextId := dbImp.nextId + 1 }) := by
  have h := c2_import_within_file_dedup dbImp 1 ⟨"Jane", some "0811", none⟩
    (by decide) (by decide) (by decide)
  exact h

/-- Roster for C3: event 1 holds {John Doe, 0812345678}. -/
def dbC3 : DB :=
  ⟨[⟨1, false⟩], [⟨1, 1, "John Doe", some "0812345678", none, false, none, "manual"⟩], 2, 0⟩

/-- C3 counterexample.  The claim says the row {john.doe, +62 812-345-678}
is imported rather than flagged.  In fact the import flags it: imported
count 0 and one duplicate entry, because after the phone criterion fails
the matcher falls through to the name criterion, which hits John Doe. -/
theorem c3_dot_name_row_cex :
    importAttendees dbC3 1 [⟨"john.doe", some "+62 812-345-678", none⟩] none =
      (.okImport 0 0
        [⟨"john.doe", some "+62 812-345-678", none, 2, "name", "John Doe", some "0812345678"⟩],
       dbC3) := by
  decide

/-- C3, amended: the normalized phones 62812345678 and 0812345678 indeed
differ, so the phone criterion does not match — but the matcher then
consults the name criterion, and john.doe and John Doe both normalize to
johndoe, so the row IS reported as a duplicate with matchedBy = name and
is not imported. -/
theorem c3_dot_name_row_amended :
    normalizePhone (some "+62 812-345-678") = some "62812345678" ∧
    normalizePhone (some "0812345678") = some "0812345678" ∧
    ("62812345678" : String) ≠ "0812345678" ∧
    normalizeName (some "john.doe") = "johndoe" ∧
    normalizeName (some "John Doe") = "johndoe" ∧
    duplicateMatch dbC3.attendees 1 "john.doe" (some "+62 812-345-678") =
      some ⟨"name", "John Doe", some "0812345678"⟩ := by
  decide

end Ekklesia
